import Mathlib

/-!
Verification development for the interactive episode driver
`minihack/scripts/play.py`.

The driver is shallowly embedded as pure Lean functions:

* the episode loop of `play` (lines 126-204) becomes a structural
  recursion `runLoop` over a finite script of loop-iteration outcomes
  (each outcome is either the abort sentinel returned by `get_action`,
  or the action together with the reward and done flag that `env.step`
  reports for that step);
* the per-step bookkeeping of one loop iteration becomes `loopIter`;
* the streaming mean updates of lines 174/179 and 194/195 become
  `runMean`; Python float arithmetic is idealised as exact rational
  arithmetic over `Rat`;
* the human-mode branch of `get_action` (lines 52-74) becomes
  `get_action_human` over a finite list of scripted input bytes;
* the `no_echo` context manager (lines 36-43) becomes a state-passing
  combinator over an explicit terminal-settings state, with Python
  exceptions (including KeyboardInterrupt) embedded as `Except` errors;
* the setup sequence of `play` before the loop (lines 94-126), together
  with the first frame capture, becomes the event trace `playStart`;
* the GIF assembly after the loop (lines 206-222) becomes
  `assembleGif` / `playShutdown`, with file modification times modelled
  by the capture order in which frames were written (each frame gets a
  fresh file name, written strictly sequentially).

Wall-clock readings of `timeit.default_timer` are abstracted by an
oracle `δ : Nat → Rat` giving the elapsed time of each episode.
-/

namespace MinihackPlay

/-- Run configuration consumed by `play` (the fields of the parsed flags
that the episode loop itself reads). -/
structure Config where
  is_raw_env : Bool
  ngames : Nat
  max_steps : Nat
  save_gif : Bool
deriving DecidableEq

/-- Mutable local state of the `play` loop (lines 128-141 and updates
inside the `while True` body).  `done` is `none` before the first
`env.step`, since the Python variable is unassigned until line 168/173.
`resets` counts calls to `env.reset` (line 126 and line 204); `reports`
records, in order, the `(episodes, steps)` pairs printed by the
end-of-episode report at line 192; `frames` records, in capture order,
the `(episodes, steps)` tags of the screenshots saved at line 161. -/
structure LoopSt where
  steps : Nat
  episodes : Nat
  reward : Rat
  action : Option Nat
  done : Option Bool
  mean_sps : Rat
  mean_reward : Rat
  resets : Nat
  reports : List (Nat × Nat)
  frames : List (Nat × Nat)
deriving DecidableEq

/-- State of the loop right after the initial `env.reset()` at line 126
and the initialisations at lines 128-134 (`resets := 1` accounts for
that initial reset). -/
def initSt : LoopSt :=
  { steps := 0, episodes := 0, reward := 0, action := none, done := none,
    mean_sps := 0, mean_reward := 0, resets := 1, reports := [], frames := [] }

/-- Scripted outcome of one loop iteration: either `get_action` returns
the abort sentinel `None` (control-C), or it returns action `a` and the
subsequent `env.step` reports reward `r` and done flag `d` (for the raw
backend `r` is ignored, since raw `step` returns no reward). -/
inductive Iter where
  | abort : Iter
  | step : Nat → Rat → Bool → Iter
deriving DecidableEq

/-- How the embedded loop ended: user abort (`break` at line 165),
completion of the configured number of episodes (`break` at line 203),
or exhaustion of the finite script (the real loop would keep running,
blocked on further input). -/
inductive ExitKind where
  | aborted : ExitKind
  | completed : ExitKind
  | outOfScript : ExitKind
deriving DecidableEq

/-- Frame capture at lines 159-161: when recording is on, save a
screenshot tagged with the current episode and step counters, before
`get_action` is invoked. -/
def markFrame (cfg : Config) (st : LoopSt) : LoopSt :=
  if cfg.save_gif then
    { st with frames := st.frames ++ [(st.episodes, st.steps)] }
  else st

/-- One iteration of the `while True` body (lines 143-204), given the
scripted outcome `it` and the elapsed-time oracle `δ`.  Returns the
updated state and `some exit` if the iteration left the loop.
Faithful ordering, per the source: frame capture (159-161), action
(163-165), step and `steps += 1` (167-174), raw done-override or
mean-reward update (176-179), and on done: report (184-192),
`episodes += 1` and mean-sps update (194-195), counter resets (199-200),
termination test (202-203) and `env.reset()` (204). -/
def loopIter (cfg : Config) (δ : Nat → Rat) (it : Iter) (st : LoopSt) :
    LoopSt × Option ExitKind :=
  let st := markFrame cfg st
  match it with
  | Iter.abort => ({ st with action := none }, some ExitKind.aborted)
  | Iter.step a r d =>
    let steps := st.steps + 1
    let doneNow : Bool :=
      if cfg.is_raw_env then d || decide (cfg.max_steps ≤ steps) else d
    let st :=
      if cfg.is_raw_env then
        { st with action := some a, steps := steps, done := some doneNow }
      else
        { st with action := some a,
                  steps := steps,
                  reward := r,
                  done := some doneNow,
                  mean_reward := st.mean_reward + (r - st.mean_reward) / (steps : Rat) }
    if doneNow then
      let sps : Rat := (st.steps : Rat) / δ st.episodes
      let st := { st with reports := st.reports ++ [(st.episodes, st.steps)] }
      let episodes := st.episodes + 1
      let st := { st with episodes := episodes,
                          mean_sps := st.mean_sps + (sps - st.mean_sps) / (episodes : Rat),
                          steps := 0, mean_reward := 0 }
      if episodes = cfg.ngames then (st, some ExitKind.completed)
      else ({ st with resets := st.resets + 1 }, none)
    else (st, none)

/-- The `while True` loop of `play`, driven by a finite script of
iteration outcomes. -/
def runLoop (cfg : Config) (δ : Nat → Rat) : List Iter → LoopSt → LoopSt × ExitKind
  | [], st => (st, ExitKind.outOfScript)
  | it :: rest, st =>
    match loopIter cfg δ it st with
    | (st1, some ek) => (st1, ek)
    | (st1, none) => runLoop cfg δ rest st1

/-- The streaming mean update shared by lines 174/179
(`steps += 1; mean_reward += (reward - mean_reward) / steps`) and
lines 194/195
(`episodes += 1; mean_sps += (sps - mean_sps) / episodes`):
fold the update over a list of samples, carrying the running mean and
the count. -/
def runMean : List Rat → Rat → Nat → Rat × Nat
  | [], m, n => (m, n)
  | x :: xs, m, n => runMean xs (m + (x - m) / ((n + 1 : Nat) : Rat)) (n + 1)

/-- Python exceptions that the embedded fragments can raise or catch. -/
inductive PyExc where
  | valueError : PyExc
  | keyboardInterrupt : PyExc
  | moduleNotFound : String → PyExc
  | other : PyExc
deriving DecidableEq

/-- The NetHack `C()` control-key macro used at line 56:
`nethack.C("c")` is `0x1f & ord("c") = 3`, the control-C code. -/
def nethackC (c : Char) : Nat := 0x1f &&& c.toNat

/-- `env.unwrapped.actions.index(ch)` at line 63: first index of `ch`
in the action list, raising `ValueError` when `ch` does not occur. -/
def pyIndex : List Nat → Nat → Except PyExc Nat
  | [], _ => Except.error PyExc.valueError
  | a :: as, x =>
    if a = x then Except.ok 0
    else
      match pyIndex as x with
      | Except.ok i => Except.ok (i + 1)
      | Except.error e => Except.error e

/-- The human-mode branch of `get_action` (lines 52-74), reading from a
finite script of input bytes and counting the corrective messages
printed at lines 66-72.  Result `some v` is the return value of
`get_action` (`v = none` is the abort sentinel returned at line 58 on
the control-C byte); result `none` means the script ran out while the
real loop would still be blocked on terminal input.  The `ValueError`
raised by the index lookup is caught (lines 59-73): on it, one
corrective message is printed and the read is retried. -/
def get_action_human (actions : List Nat) (is_raw_env : Bool) :
    List Nat → Nat → Option (Option Nat) × Nat
  | [], msgs => (none, msgs)
  | ch :: rest, msgs =>
    if ch = nethackC 'c' then (some none, msgs)
    else if is_raw_env then (some (some ch), msgs)
    else
      match pyIndex actions ch with
      | Except.ok i => (some (some i), msgs)
      | Except.error _ => get_action_human actions is_raw_env rest (msgs + 1)

/-- The terminal driver settings of file descriptor 0, a process-wide
shared resource. -/
structure Terminal where
  settings : Nat
deriving DecidableEq

/-- `termios.tcgetattr(0)` at line 38. -/
def tcgetattr (t : Terminal) : Nat := t.settings

/-- `termios.tcsetattr(0, termios.TCSAFLUSH, a)` at line 43. -/
def tcsetattr (_t : Terminal) (a : Nat) : Terminal := { settings := a }

/-- The raw-mode settings installed by `tty.setraw(0)` at line 40. -/
def rawSettings : Nat := 0

/-- `tty.setraw(0)` at line 40. -/
def setraw (_t : Terminal) : Terminal := { settings := rawSettings }

/-- The `no_echo` context manager (lines 36-43): read the current
settings, enter raw mode, run the body, and in a `finally` block
restore the saved settings — on normal return and on any exception
(including `KeyboardInterrupt`) alike.  The body threads the terminal
state and may end in an `Except` error, which the combinator
propagates after restoring. -/
def no_echo {α : Type} (body : Terminal → Except PyExc α × Terminal)
    (t : Terminal) : Except PyExc α × Terminal :=
  let tt := tcgetattr t
  let r := body (setraw t)
  (r.1, tcsetattr r.2 tt)

/-- Observable events of the setup phase of `play` (lines 94-126) and
of the first frame capture of the loop (lines 159-161). -/
inductive PlayEvent where
  | raiseNoPillow : String → PlayEvent
  | constructEnv : PlayEvent
  | resetEnv : PlayEvent
  | frameSave : PlayEvent
  | crashNoPillowName : PlayEvent
deriving DecidableEq

/-- The remediation hint in the `ModuleNotFoundError` raised at
lines 111-114. -/
def pillowHint : String :=
  "To safe GIF files of trajectories, please install Pillow: pip install Pillow"

/-- Event trace of `play` from entry up to (and including) the first
frame capture of the loop.  For the raw backend (lines 94-100) no
Pillow check is performed: `nethack.Nethack` is constructed and reset
(line 126), and when recording is enabled the first iteration crashes
at line 160 because the name `PIL` was never bound in this branch
(the `import PIL.Image` at line 109 only executes in the non-raw
branch), regardless of whether Pillow is installed.  For the
structured backend with recording enabled (lines 106-114), a missing
Pillow raises `ModuleNotFoundError` with an installation hint before
`gym.make` at line 116 and before the reset at line 126. -/
def playStart (is_raw_env save_gif pillow_installed : Bool) : List PlayEvent :=
  if is_raw_env then
    [PlayEvent.constructEnv, PlayEvent.resetEnv] ++
      (if save_gif then [PlayEvent.crashNoPillowName] else [])
  else if save_gif && !pillow_installed then
    [PlayEvent.raiseNoPillow pillowHint]
  else
    [PlayEvent.constructEnv, PlayEvent.resetEnv] ++
      (if save_gif then [PlayEvent.frameSave] else [])

/-- The assembled animated artifact of lines 211-219: the frame tags in
assembled order, the per-frame duration, and the loop count (`loop=0`
meaning infinite looping). -/
structure Gif where
  gifFrames : List (Nat × Nat)
  duration : Nat
  loopCount : Nat
deriving DecidableEq

/-- GIF assembly at lines 208-219.  The saved frame files are globbed
and sorted by modification time; since each capture writes a fresh,
uniquely named file strictly sequentially, modification-time order is
capture order, so the input here is the capture-ordered tag list.
`img, *imgs = [...]` at line 211 raises on an empty list, modelled by
`none`; otherwise the artifact holds all frames in order, with the
configured duration and `loop=0`. -/
def assembleGif (gif_duration : Nat) (stored : List (Nat × Nat)) : Option Gif :=
  match stored with
  | [] => none
  | f :: fs => some { gifFrames := f :: fs, duration := gif_duration, loopCount := 0 }

/-- Outcome of the code after the loop (lines 206-227): the final loop
state, how the loop exited, the assembled artifact when recording was
enabled, and whether the temporary frame directory still exists
(`shutil.rmtree(tmpdir)` at line 220 removes it after assembly). -/
structure FinalOutcome where
  finalSt : LoopSt
  exit : ExitKind
  gif : Option Gif
  tmpdirExists : Bool
deriving DecidableEq

/-- The post-loop code of `play` (lines 206-223), run on both the
completed and the aborted exits of the loop (both leave the loop by
`break`, i.e. normal termination).  `none` models the uncaught
exception raised by the empty destructuring at line 211. -/
def playShutdown (cfg : Config) (gif_duration : Nat) (r : LoopSt × ExitKind) :
    Option FinalOutcome :=
  if cfg.save_gif then
    match assembleGif gif_duration r.1.frames with
    | none => none
    | some g =>
      some { finalSt := r.1, exit := r.2, gif := some g, tmpdirExists := false }
  else
    some { finalSt := r.1, exit := r.2, gif := none, tmpdirExists := false }

/-- One synthetic episode script: the backend reports done exactly on
the last of the listed `(action, reward)` steps. -/
def mkEpisode : List (Nat × Rat) → List Iter
  | [] => []
  | [p] => [Iter.step p.1 p.2 true]
  | p :: q :: rest => Iter.step p.1 p.2 false :: mkEpisode (q :: rest)

/-- Concatenation of synthetic episode scripts. -/
def joinEpisodes : List (List (Nat × Rat)) → List Iter
  | [] => []
  | e :: es => mkEpisode e ++ joinEpisodes es

section Helpers

variable (cfg : Config) (δ : Nat → Rat)

@[simp]
lemma markFrame_steps (st : LoopSt) : (markFrame cfg st).steps = st.steps := by
  unfold markFrame; split <;> rfl

@[simp]
lemma markFrame_episodes (st : LoopSt) : (markFrame cfg st).episodes = st.episodes := by
  unfold markFrame; split <;> rfl

@[simp]
lemma markFrame_reward (st : LoopSt) : (markFrame cfg st).reward = st.reward := by
  unfold markFrame; split <;> rfl

@[simp]
lemma markFrame_action (st : LoopSt) : (markFrame cfg st).action = st.action := by
  unfold markFrame; split <;> rfl

@[simp]
lemma markFrame_done (st : LoopSt) : (markFrame cfg st).done = st.done := by
  unfold markFrame; split <;> rfl

@[simp]
lemma markFrame_mean_sps (st : LoopSt) : (markFrame cfg st).mean_sps = st.mean_sps := by
  unfold markFrame; split <;> rfl

@[simp]
lemma markFrame_mean_reward (st : LoopSt) :
    (markFrame cfg st).mean_reward = st.mean_reward := by
  unfold markFrame; split <;> rfl

@[simp]
lemma markFrame_resets (st : LoopSt) : (markFrame cfg st).resets = st.resets := by
  unfold markFrame; split <;> rfl

@[simp]
lemma markFrame_reports (st : LoopSt) : (markFrame cfg st).reports = st.reports := by
  unfold markFrame; split <;> rfl

lemma runLoop_cons_continue (it : Iter) (st : LoopSt) (rest : List Iter)
    (h : (loopIter cfg δ it st).2 = none) :
    runLoop cfg δ (it :: rest) st = runLoop cfg δ rest (loopIter cfg δ it st).1 := by
  rcases hli : loopIter cfg δ it st with ⟨st1, ek⟩
  rw [hli] at h
  simp at h
  subst h
  simp [runLoop, hli]

lemma runLoop_cons_exit (it : Iter) (st : LoopSt) (rest : List Iter) (ek : ExitKind)
    (h : (loopIter cfg δ it st).2 = some ek) :
    runLoop cfg δ (it :: rest) st = ((loopIter cfg δ it st).1, ek) := by
  rcases hli : loopIter cfg δ it st with ⟨st1, ek1⟩
  rw [hli] at h
  simp at h
  subst h
  simp [runLoop, hli]

/-- A non-final structured step: the adapter reports done = false, the
loop updates the bookkeeping and continues. -/
lemma loopIter_structured_not_done (a : Nat) (r : Rat) (st : LoopSt)
    (hraw : cfg.is_raw_env = false) :
    loopIter cfg δ (Iter.step a r false) st =
      ({ markFrame cfg st with
           action := some a,
           steps := st.steps + 1,
           reward := r,
           done := some false,
           mean_reward := st.mean_reward +
             (r - st.mean_reward) / ((st.steps + 1 : Nat) : Rat) }, none) := by
  simp [loopIter, hraw]

/-- A final structured step with a further episode to run: report,
update the cross-episode statistics, clear the per-episode counters
and reset the environment (lines 184-204). -/
lemma loopIter_structured_done_cont (a : Nat) (r : Rat) (st : LoopSt)
    (hraw : cfg.is_raw_env = false) (hn : st.episodes + 1 ≠ cfg.ngames) :
    loopIter cfg δ (Iter.step a r true) st =
      ({ markFrame cfg st with
           action := some a,
           steps := 0,
           reward := r,
           done := some true,
           mean_reward := 0,
           episodes := st.episodes + 1,
           mean_sps := st.mean_sps +
             (((st.steps + 1 : Nat) : Rat) / δ st.episodes - st.mean_sps) /
               ((st.episodes + 1 : Nat) : Rat),
           reports := st.reports ++ [(st.episodes, st.steps + 1)],
           resets := st.resets + 1 }, none) := by
  simp [loopIter, hraw, hn]

/-- A final structured step of the last configured episode: report,
update statistics, clear counters and leave the loop (line 203). -/
lemma loopIter_structured_done_last (a : Nat) (r : Rat) (st : LoopSt)
    (hraw : cfg.is_raw_env = false) (hlast : st.episodes + 1 = cfg.ngames) :
    loopIter cfg δ (Iter.step a r true) st =
      ({ markFrame cfg st with
           action := some a,
           steps := 0,
           reward := r,
           done := some true,
           mean_reward := 0,
           episodes := st.episodes + 1,
           mean_sps := st.mean_sps +
             (((st.steps + 1 : Nat) : Rat) / δ st.episodes - st.mean_sps) /
               ((st.episodes + 1 : Nat) : Rat),
           reports := st.reports ++ [(st.episodes, st.steps + 1)] },
        some ExitKind.completed) := by
  simp [loopIter, hraw, hlast]

/-- A raw-backend step below the step budget with the adapter
reporting done = false: the episode continues. -/
lemma loopIter_raw_not_done (a : Nat) (r : Rat) (st : LoopSt)
    (hraw : cfg.is_raw_env = true) (hlt : st.steps + 1 < cfg.max_steps) :
    loopIter cfg δ (Iter.step a r false) st =
      ({ markFrame cfg st with
           action := some a,
           steps := st.steps + 1,
           done := some false }, none) := by
  have hn : ¬ cfg.max_steps ≤ st.steps + 1 := by omega
  simp [loopIter, hraw, hn]

/-- A raw-backend step that reaches the step budget during the last
configured episode, with the adapter still reporting done = false: the
`done or steps >= max_steps` override at line 177 ends the episode and
the loop leaves with `completed`. -/
lemma loopIter_raw_budget_last (a : Nat) (r : Rat) (st : LoopSt)
    (hraw : cfg.is_raw_env = true) (hge : cfg.max_steps ≤ st.steps + 1)
    (hlast : st.episodes + 1 = cfg.ngames) :
    loopIter cfg δ (Iter.step a r false) st =
      ({ markFrame cfg st with
           action := some a,
           steps := 0,
           done := some true,
           mean_reward := 0,
           episodes := st.episodes + 1,
           mean_sps := st.mean_sps +
             (((st.steps + 1 : Nat) : Rat) / δ st.episodes - st.mean_sps) /
               ((st.episodes + 1 : Nat) : Rat),
           reports := st.reports ++ [(st.episodes, st.steps + 1)] },
        some ExitKind.completed) := by
  simp [loopIter, hraw, hge, hlast]

/-- Running one synthetic episode (structured backend) from a state
with a further configured episode to run: the loop consumes the episode
script, emits one report, performs one reset, clears the step counter
and goes on with the remaining script. -/
lemma runEpisode_cont (hraw : cfg.is_raw_env = false) :
    ∀ (ep : List (Nat × Rat)) (st : LoopSt) (rest : List Iter), ep ≠ [] →
      st.episodes + 1 ≠ cfg.ngames →
      ∃ st1, runLoop cfg δ (mkEpisode ep ++ rest) st = runLoop cfg δ rest st1 ∧
        st1.episodes = st.episodes + 1 ∧
        st1.reports.length = st.reports.length + 1 ∧
        st1.resets = st.resets + 1 ∧
        st1.steps = 0 := by
  intro ep
  induction ep with
  | nil => intro st rest h; exact absurd rfl h
  | cons p tail ih =>
    intro st rest _ hn
    cases tail with
    | nil =>
      have h2 := loopIter_structured_done_cont cfg δ p.1 p.2 st hraw hn
      refine ⟨(loopIter cfg δ (Iter.step p.1 p.2 true) st).1, ?_, ?_, ?_, ?_, ?_⟩
      · show runLoop cfg δ (Iter.step p.1 p.2 true :: rest) st = _
        exact runLoop_cons_continue cfg δ _ _ _ (by rw [h2])
      · rw [h2]; try simp
      · rw [h2]; try simp
      · rw [h2]; try simp
      · rw [h2]; try simp
    | cons q tail2 =>
      have h1 := loopIter_structured_not_done cfg δ p.1 p.2 st hraw
      have hcont : runLoop cfg δ (mkEpisode (p :: q :: tail2) ++ rest) st =
          runLoop cfg δ (mkEpisode (q :: tail2) ++ rest)
            (loopIter cfg δ (Iter.step p.1 p.2 false) st).1 := by
        show runLoop cfg δ (Iter.step p.1 p.2 false :: (mkEpisode (q :: tail2) ++ rest)) st = _
        exact runLoop_cons_continue cfg δ _ _ _ (by rw [h1])
      obtain ⟨st1, heq, he, hr, hc, hs⟩ :=
        ih (loopIter cfg δ (Iter.step p.1 p.2 false) st).1 rest (by simp)
          (by rw [h1]; simpa using hn)
      refine ⟨st1, by rw [hcont, heq], ?_, ?_, ?_, hs⟩
      · rw [he, h1]; simp
      · rw [hr, h1]; simp
      · rw [hc, h1]; simp

/-- Running one synthetic episode (structured backend) as the last
configured episode: the loop consumes the episode script, emits one
report, performs no further reset, and leaves with `completed`. -/
lemma runEpisode_last (hraw : cfg.is_raw_env = false) :
    ∀ (ep : List (Nat × Rat)) (st : LoopSt) (rest : List Iter), ep ≠ [] →
      st.episodes + 1 = cfg.ngames →
      ∃ stf, runLoop cfg δ (mkEpisode ep ++ rest) st = (stf, ExitKind.completed) ∧
        stf.episodes = st.episodes + 1 ∧
        stf.reports.length = st.reports.length + 1 ∧
        stf.resets = st.resets := by
  intro ep
  induction ep with
  | nil => intro st rest h; exact absurd rfl h
  | cons p tail ih =>
    intro st rest _ hlast
    cases tail with
    | nil =>
      have h2 := loopIter_structured_done_last cfg δ p.1 p.2 st hraw hlast
      refine ⟨(loopIter cfg δ (Iter.step p.1 p.2 true) st).1, ?_, ?_, ?_, ?_⟩
      · show runLoop cfg δ (Iter.step p.1 p.2 true :: rest) st = _
        exact runLoop_cons_exit cfg δ _ _ _ _ (by rw [h2])
      · rw [h2]; try simp
      · rw [h2]; try simp
      · rw [h2]; try simp
    | cons q tail2 =>
      have h1 := loopIter_structured_not_done cfg δ p.1 p.2 st hraw
      have hcont : runLoop cfg δ (mkEpisode (p :: q :: tail2) ++ rest) st =
          runLoop cfg δ (mkEpisode (q :: tail2) ++ rest)
            (loopIter cfg δ (Iter.step p.1 p.2 false) st).1 := by
        show runLoop cfg δ (Iter.step p.1 p.2 false :: (mkEpisode (q :: tail2) ++ rest)) st = _
        exact runLoop_cons_continue cfg δ _ _ _ (by rw [h1])
      obtain ⟨stf, heq, he, hr, hc⟩ :=
        ih (loopIter cfg δ (Iter.step p.1 p.2 false) st).1 rest (by simp)
          (by rw [h1]; simpa using hlast)
      refine ⟨stf, by rw [hcont, heq], ?_, ?_, ?_⟩
      · rw [he, h1]; simp
      · rw [hr, h1]; simp
      · rw [hc, h1]; simp

/-- Running a nonempty list of synthetic episodes that exactly uses up
the remaining configured episode budget: the loop completes, emitting
one report per episode and resetting between consecutive episodes
only. -/
lemma runEpisodes_completed (hraw : cfg.is_raw_env = false) :
    ∀ (eps : List (List (Nat × Rat))) (st : LoopSt), eps ≠ [] →
      (∀ e ∈ eps, e ≠ ([] : List (Nat × Rat))) →
      st.episodes + eps.length = cfg.ngames →
      ∃ stf, runLoop cfg δ (joinEpisodes eps) st = (stf, ExitKind.completed) ∧
        stf.episodes = cfg.ngames ∧
        stf.reports.length = st.reports.length + eps.length ∧
        stf.resets = st.resets + (eps.length - 1) := by
  intro eps
  induction eps with
  | nil => intro st h; exact absurd rfl h
  | cons e es ih =>
    intro st _ hne hcount
    cases es with
    | nil =>
      have hlast : st.episodes + 1 = cfg.ngames := by simpa using hcount
      obtain ⟨stf, heq, he, hr, hc⟩ :=
        runEpisode_last cfg δ hraw e st (joinEpisodes [])
          (hne e (List.mem_cons_self e [])) hlast
      refine ⟨stf, ?_, ?_, ?_, ?_⟩
      · show runLoop cfg δ (mkEpisode e ++ joinEpisodes []) st = _
        exact heq
      · omega
      · simpa using hr
      · simpa using hc
    | cons e2 es2 =>
      have hn : st.episodes + 1 ≠ cfg.ngames := by
        have : (e2 :: es2).length = es2.length + 1 := by simp
        simp only [List.length_cons] at hcount
        omega
      obtain ⟨st1, heq1, he1, hr1, hc1, _⟩ :=
        runEpisode_cont cfg δ hraw e st (joinEpisodes (e2 :: es2))
          (hne e (List.mem_cons_self e _)) hn
      obtain ⟨stf, heq2, he2, hr2, hc2⟩ :=
        ih st1 (by simp)
          (fun x hx => hne x (List.mem_cons_of_mem e hx))
          (by simp only [List.length_cons] at hcount ⊢; omega)
      refine ⟨stf, ?_, he2, ?_, ?_⟩
      · show runLoop cfg δ (mkEpisode e ++ joinEpisodes (e2 :: es2)) st = _
        rw [heq1, heq2]
      · simp only [List.length_cons] at hr2 ⊢
        omega
      · simp only [List.length_cons] at hc2 ⊢
        omega

/-- Raw backend, last configured episode, adapter never reporting done:
after exactly `k` further steps the step counter reaches the budget and
the episode ends there, whatever script follows. -/
lemma raw_budget_lemma (a : Nat) (r : Rat) (rest : List Iter)
    (hraw : cfg.is_raw_env = true) :
    ∀ (k : Nat) (st : LoopSt), 1 ≤ k → st.steps + k = cfg.max_steps →
      st.episodes + 1 = cfg.ngames →
      ∃ stf, runLoop cfg δ (List.replicate k (Iter.step a r false) ++ rest) st =
          (stf, ExitKind.completed) ∧
        stf.reports = st.reports ++ [(st.episodes, cfg.max_steps)] := by
  intro k
  induction k with
  | zero => intro st h; omega
  | succ k ih =>
    intro st _ hsum hlast
    cases Nat.eq_zero_or_pos k with
    | inl hk0 =>
      subst hk0
      have hge : cfg.max_steps ≤ st.steps + 1 := by omega
      have h2 := loopIter_raw_budget_last cfg δ a r st hraw hge hlast
      refine ⟨(loopIter cfg δ (Iter.step a r false) st).1, ?_, ?_⟩
      · show runLoop cfg δ (Iter.step a r false :: rest) st = _
        exact runLoop_cons_exit cfg δ _ _ _ _ (by rw [h2])
      · rw [h2]
        simp only [markFrame_reports]
        have : st.steps + 1 = cfg.max_steps := by omega
        rw [this]
    | inr hkpos =>
      have hlt : st.steps + 1 < cfg.max_steps := by omega
      have h1 := loopIter_raw_not_done cfg δ a r st hraw hlt
      have hcont : runLoop cfg δ
            (List.replicate (k + 1) (Iter.step a r false) ++ rest) st =
          runLoop cfg δ (List.replicate k (Iter.step a r false) ++ rest)
            (loopIter cfg δ (Iter.step a r false) st).1 := by
        rw [List.replicate_succ, List.cons_append]
        exact runLoop_cons_continue cfg δ _ _ _ (by rw [h1])
      obtain ⟨stf, heq, hrep⟩ :=
        ih (loopIter cfg δ (Iter.step a r false) st).1 hkpos
          (by rw [h1]; simp; omega) (by rw [h1]; simpa using hlast)
      refine ⟨stf, by rw [hcont, heq], ?_⟩
      rw [hrep, h1]
      simp

/-- Within one iteration, frames are only written by the capture at the
top of the loop body; nothing later in the iteration touches them. -/
lemma loopIter_frames (it : Iter) (st : LoopSt) :
    (loopIter cfg δ it st).1.frames = (markFrame cfg st).frames := by
  cases it with
  | abort => rfl
  | step a r d =>
    simp only [loopIter]
    split
    · split
      · split <;> rfl
      · rfl
    · split
      · split <;> rfl
      · rfl

/-- With recording on, each iteration appends exactly the frame tagged
with the current episode and step counters. -/
lemma loopIter_frames_capture (it : Iter) (st : LoopSt) (hsg : cfg.save_gif = true) :
    (loopIter cfg δ it st).1.frames = st.frames ++ [(st.episodes, st.steps)] := by
  rw [loopIter_frames]
  simp [markFrame, hsg]

lemma markFrame_frames_prefix (st : LoopSt) : st.frames <+: (markFrame cfg st).frames := by
  unfold markFrame
  split
  · exact List.prefix_append st.frames _
  · exact List.prefix_rfl

/-- The captured-frame list only ever grows while the loop runs. -/
lemma runLoop_frames_prefix :
    ∀ (script : List Iter) (st : LoopSt),
      st.frames <+: (runLoop cfg δ script st).1.frames := by
  intro script
  induction script with
  | nil => intro st; exact List.prefix_rfl
  | cons it rest ih =>
    intro st
    have hpre : st.frames <+: (loopIter cfg δ it st).1.frames := by
      rw [loopIter_frames]
      exact markFrame_frames_prefix cfg st
    rcases hli : loopIter cfg δ it st with ⟨st1, ek⟩
    rw [hli] at hpre
    cases ek with
    | none =>
      rw [runLoop_cons_continue cfg δ it st rest (by rw [hli])]
      rw [hli]
      exact hpre.trans (ih st1)
    | some e =>
      rw [runLoop_cons_exit cfg δ it st rest e (by rw [hli])]
      rw [hli]
      exact hpre

/-- The streaming mean carries the exact count of samples seen. -/
lemma runMean_snd (xs : List Rat) : ∀ (m : Rat) (n : Nat),
    (runMean xs m n).2 = n + xs.length := by
  induction xs with
  | nil => intro m n; simp [runMean]
  | cons x xs ih =>
    intro m n
    rw [runMean, ih]
    simp
    omega

/-- Closed form of the streaming mean from a positive count: it equals
the naive total divided by the final count. -/
lemma runMean_fst (xs : List Rat) : ∀ (m : Rat) (n : Nat), 0 < n →
    (runMean xs m n).1 = (m * n + xs.sum) / ((n : Rat) + xs.length) := by
  induction xs with
  | nil =>
    intro m n hn
    have hne : ((n : Rat)) ≠ 0 := by positivity
    simp [runMean]
    field_simp
  | cons x xs ih =>
    intro m n hn
    rw [runMean, ih _ (n + 1) (Nat.succ_pos n)]
    have h1 : ((n : Rat) + 1) ≠ 0 := by positivity
    have h2 : ((n : Rat) + 1 + (xs.length : Rat)) ≠ 0 := by positivity
    have h3 : ((n : Rat) + ((xs.length : Rat) + 1)) ≠ 0 := by positivity
    simp only [List.sum_cons, List.length_cons]
    push_cast
    rw [div_eq_div_iff h2 h3]
    field_simp
    ring

/-- The streaming mean started from `(0, 0)` is the arithmetic mean. -/
lemma runMean_eq_mean (xs : List Rat) :
    (runMean xs 0 0).1 = xs.sum / (xs.length : Rat) := by
  cases xs with
  | nil => simp [runMean]
  | cons x xs =>
    rw [runMean]
    have harg : (0 : Rat) + (x - 0) / (((0 + 1 : Nat)) : Rat) = x := by norm_num
    rw [harg, runMean_fst xs x 1 Nat.one_pos]
    simp only [List.sum_cons, List.length_cons]
    push_cast
    ring_nf

end Helpers

/-- `list.index` raises `ValueError` exactly on absent elements. -/
lemma pyIndex_not_mem (l : List Nat) (x : Nat) (h : x ∉ l) :
    pyIndex l x = Except.error PyExc.valueError := by
  induction l with
  | nil => rfl
  | cons a as ih =>
    have hax : ¬ a = x := fun e => h (e ▸ List.mem_cons_self a as)
    have has : x ∉ as := fun hm => h (List.mem_cons_of_mem a hm)
    simp [pyIndex, hax, ih has]

/-- `list.index` on a present element returns an index at which the
element occurs. -/
lemma pyIndex_mem (l : List Nat) (x : Nat) (h : x ∈ l) :
    ∃ i, pyIndex l x = Except.ok i ∧ l[i]? = some x := by
  induction l with
  | nil => cases h
  | cons a as ih =>
    by_cases hax : a = x
    · exact ⟨0, by simp [pyIndex, hax], by simp [hax]⟩
    · have hmem : x ∈ as := by
        cases h with
        | head => exact absurd rfl hax
        | tail _ hm => exact hm
      obtain ⟨i, hi, hg⟩ := ih hmem
      exact ⟨i + 1, by simp [pyIndex, hax, hi], by simpa using hg⟩

/-- Claim C1: for every structured run configured with `N` episodes
(here `N = eps.length`, each synthetic episode being a nonempty list
of steps whose last step reports done, and no abort occurring), the
episode loop performs exactly `N` environment resets — the initial
reset of line 126 plus one reset (line 204) per non-final episode
boundary — prints exactly `N` end-of-episode reports (line 192), and
then terminates the loop. -/
theorem play_loop_resets_and_reports (δ : Nat → Rat) (ms : Nat) (sg : Bool)
    (eps : List (List (Nat × Rat))) (h1 : eps ≠ [])
    (h2 : ∀ e ∈ eps, e ≠ ([] : List (Nat × Rat))) :
    ∃ stf,
      runLoop { is_raw_env := false, ngames := eps.length, max_steps := ms,
                save_gif := sg } δ (joinEpisodes eps) initSt =
        (stf, ExitKind.completed) ∧
      stf.reports.length = eps.length ∧
      stf.resets = eps.length := by
  obtain ⟨stf, heq, _, hr, hc⟩ :=
    runEpisodes_completed
      { is_raw_env := false, ngames := eps.length, max_steps := ms, save_gif := sg }
      δ rfl eps initSt h1 h2 (by simp [initSt])
  have hpos : 1 ≤ eps.length := List.length_pos.mpr h1
  refine ⟨stf, heq, ?_, ?_⟩
  · rw [hr, show initSt.reports = [] from rfl]
    simp
  · rw [hc, show initSt.resets = 1 from rfl]
    omega

theorem play_loop_resets_and_reports_witness :
    ∃ stf,
      runLoop { is_raw_env := false,
                ngames := ([[(0, 1)], [(0, 2)]] : List (List (Nat × Rat))).length,
                max_steps := 10, save_gif := false } (fun _ => 1)
        (joinEpisodes [[(0, 1)], [(0, 2)]]) initSt = (stf, ExitKind.completed) ∧
      stf.reports.length = ([[(0, 1)], [(0, 2)]] : List (List (Nat × Rat))).length ∧
      stf.resets = ([[(0, 1)], [(0, 2)]] : List (List (Nat × Rat))).length :=
  play_loop_resets_and_reports (fun _ => 1) 10 false [[(0, 1)], [(0, 2)]]
    (by decide) (by decide)

/-- Claim C2: both incremental running-mean estimators agree with the
naive arithmetic mean (in the exact rational idealisation of the float
arithmetic): the within-episode mean-reward estimator equals the naive
mean of the rewards fed so far at every prefix of length at least 1,
and the cross-episode mean-SPS estimator after `M` completed episodes
equals the naive mean of the per-episode SPS values. -/
theorem mean_estimators_agree (rs ss : List Rat) (k : Nat)
    (_hk : 1 ≤ k) (hkl : k ≤ rs.length) (_hM : 1 ≤ ss.length) :
    (runMean (rs.take k) 0 0).1 = (rs.take k).sum / (k : Rat) ∧
    (runMean ss 0 0).1 = ss.sum / (ss.length : Rat) := by
  constructor
  · rw [runMean_eq_mean]
    have hlen : (rs.take k).length = k := by
      rw [List.length_take]
      omega
    rw [hlen]
  · exact runMean_eq_mean ss

theorem mean_estimators_agree_witness :
    (runMean (([1, 2, 3] : List Rat).take 2) 0 0).1 =
      (([1, 2, 3] : List Rat).take 2).sum / ((2 : Nat) : Rat) ∧
    (runMean ([2, 4] : List Rat) 0 0).1 =
      ([2, 4] : List Rat).sum / ((([2, 4] : List Rat).length : Nat) : Rat) :=
  mean_estimators_agree [1, 2, 3] [2, 4] 2 (by decide) (by decide) (by decide)

/-- Claim C3: for the raw backend, if the adapter reports done = false
on every step but the per-episode step counter reaches the configured
max-steps budget, the episode ends at exactly the step where the
counter first reaches the budget: the loop consumes exactly
`max_steps` script entries (whatever follows is untouched) and the
single end-of-episode report records exactly `max_steps` steps,
because line 177 ORs the adapter done with `steps >= max_steps`. -/
theorem raw_budget_ends_episode (cfg : Config) (δ : Nat → Rat) (a : Nat) (r : Rat)
    (rest : List Iter) (st : LoopSt) (hraw : cfg.is_raw_env = true)
    (hB : 1 ≤ cfg.max_steps) (hs : st.steps = 0)
    (hlast : st.episodes + 1 = cfg.ngames) :
    ∃ stf,
      runLoop cfg δ (List.replicate cfg.max_steps (Iter.step a r false) ++ rest) st =
        (stf, ExitKind.completed) ∧
      stf.reports = st.reports ++ [(st.episodes, cfg.max_steps)] :=
  raw_budget_lemma cfg δ a r rest hraw cfg.max_steps st hB (by omega) hlast

theorem raw_budget_ends_episode_witness :
    ∃ stf,
      runLoop { is_raw_env := true, ngames := 1, max_steps := 3, save_gif := false }
        (fun _ => 1)
        (List.replicate
          ({ is_raw_env := true, ngames := 1, max_steps := 3,
             save_gif := false } : Config).max_steps (Iter.step 0 0 false) ++
          [Iter.step 0 0 false]) initSt =
        (stf, ExitKind.completed) ∧
      stf.reports = initSt.reports ++
        [(initSt.episodes,
          ({ is_raw_env := true, ngames := 1, max_steps := 3,
             save_gif := false } : Config).max_steps)] :=
  raw_budget_ends_episode
    { is_raw_env := true, ngames := 1, max_steps := 3, save_gif := false }
    (fun _ => 1) 0 0 [Iter.step 0 0 false] initSt rfl (by decide) rfl rfl

/-- Claim C4 counterexample: in a structured 2-episode run whose first
episode ends after one step with action 5 and reward 3, the state
entering the next episode (the iteration returns `none`, i.e. the loop
continues after the reset of line 204) still has last reward 3, last
action `some 5` and done flag `some true` — lines 199-200 reset only
the step counter and the per-episode mean reward, so the claim that
all components of the episode state are reset to their zero/initial
values at each episode boundary is false. -/
theorem episode_state_not_fully_reset_cx :
    ((loopIter { is_raw_env := false, ngames := 2, max_steps := 10000,
                 save_gif := false } (fun _ => 1) (Iter.step 5 3 true) initSt).2
        = none ∧
      (loopIter { is_raw_env := false, ngames := 2, max_steps := 10000,
                  save_gif := false } (fun _ => 1) (Iter.step 5 3 true) initSt).1.reward
        = 3 ∧
      (loopIter { is_raw_env := false, ngames := 2, max_steps := 10000,
                  save_gif := false } (fun _ => 1) (Iter.step 5 3 true) initSt).1.action
        = some 5 ∧
      (loopIter { is_raw_env := false, ngames := 2, max_steps := 10000,
                  save_gif := false } (fun _ => 1) (Iter.step 5 3 true) initSt).1.done
        = some true) ∧
    ¬ ((loopIter { is_raw_env := false, ngames := 2, max_steps := 10000,
                   save_gif := false } (fun _ => 1) (Iter.step 5 3 true) initSt).1.reward
          = initSt.reward ∧
       (loopIter { is_raw_env := false, ngames := 2, max_steps := 10000,
                   save_gif := false } (fun _ => 1) (Iter.step 5 3 true) initSt).1.action
          = initSt.action) := by
  decide

/-- Claim C4 amended: at every episode boundary with a further episode
to run (structured backend), the step counter and the per-episode mean
reward are reset to zero before the next episode begins, and the
episode and reset counters advance; but the last action, last reward
and done flag are not reset — they keep the finished episode's final
values into the next episode's first iteration. -/
theorem episode_boundary_partial_reset (cfg : Config) (δ : Nat → Rat)
    (a : Nat) (r : Rat) (st : LoopSt)
    (hraw : cfg.is_raw_env = false) (hn : st.episodes + 1 ≠ cfg.ngames) :
    (loopIter cfg δ (Iter.step a r true) st).2 = none ∧
    (loopIter cfg δ (Iter.step a r true) st).1.steps = 0 ∧
    (loopIter cfg δ (Iter.step a r true) st).1.mean_reward = 0 ∧
    (loopIter cfg δ (Iter.step a r true) st).1.action = some a ∧
    (loopIter cfg δ (Iter.step a r true) st).1.reward = r ∧
    (loopIter cfg δ (Iter.step a r true) st).1.done = some true ∧
    (loopIter cfg δ (Iter.step a r true) st).1.episodes = st.episodes + 1 ∧
    (loopIter cfg δ (Iter.step a r true) st).1.resets = st.resets + 1 := by
  rw [loopIter_structured_done_cont cfg δ a r st hraw hn]
  refine ⟨rfl, ?_, ?_, ?_, ?_, ?_, ?_, ?_⟩ <;> simp

theorem episode_boundary_partial_reset_witness :
    (loopIter { is_raw_env := false, ngames := 2, max_steps := 10000,
                save_gif := false } (fun _ => 1) (Iter.step 5 3 true) initSt).2 = none ∧
    (loopIter { is_raw_env := false, ngames := 2, max_steps := 10000,
                save_gif := false } (fun _ => 1) (Iter.step 5 3 true) initSt).1.steps = 0 ∧
    (loopIter { is_raw_env := false, ngames := 2, max_steps := 10000,
                save_gif := false } (fun _ => 1) (Iter.step 5 3 true) initSt).1.mean_reward = 0 ∧
    (loopIter { is_raw_env := false, ngames := 2, max_steps := 10000,
                save_gif := false } (fun _ => 1) (Iter.step 5 3 true) initSt).1.action = some 5 ∧
    (loopIter { is_raw_env := false, ngames := 2, max_steps := 10000,
                save_gif := false } (fun _ => 1) (Iter.step 5 3 true) initSt).1.reward = 3 ∧
    (loopIter { is_raw_env := false, ngames := 2, max_steps := 10000,
                save_gif := false } (fun _ => 1) (Iter.step 5 3 true) initSt).1.done = some true ∧
    (loopIter { is_raw_env := false, ngames := 2, max_steps := 10000,
                save_gif := false } (fun _ => 1) (Iter.step 5 3 true) initSt).1.episodes =
      initSt.episodes + 1 ∧
    (loopIter { is_raw_env := false, ngames := 2, max_steps := 10000,
                save_gif := false } (fun _ => 1) (Iter.step 5 3 true) initSt).1.resets =
      initSt.resets + 1 :=
  episode_boundary_partial_reset
    { is_raw_env := false, ngames := 2, max_steps := 10000, save_gif := false }
    (fun _ => 1) 5 3 initSt rfl (by decide)

/-- Claim C5: if the action source yields the abort sentinel (`None`,
produced by the control-C keystroke, as the last conjunct shows for
`get_action`) while more episodes are configured, the loop terminates
immediately with the `aborted` exit: the environment is not stepped
again (step counter unchanged), no report is emitted, no reset is
performed, the remaining script is discarded so none of the remaining
configured episodes is ever started, and — with recording off — the
normal shutdown code still runs, i.e. the abort is normal termination,
not an error. -/
theorem abort_terminates_immediately (cfg : Config) (δ : Nat → Rat)
    (rest : List Iter) (st : LoopSt) (gd : Nat) (acts more : List Nat)
    (h : st.episodes < cfg.ngames) :
    ∃ st1, runLoop cfg δ (Iter.abort :: rest) st = (st1, ExitKind.aborted) ∧
      st1.episodes = st.episodes ∧
      st1.steps = st.steps ∧
      st1.reports = st.reports ∧
      st1.resets = st.resets ∧
      st1.episodes < cfg.ngames ∧
      (cfg.save_gif = false →
        playShutdown cfg gd (st1, ExitKind.aborted) =
          some { finalSt := st1, exit := ExitKind.aborted, gif := none,
                 tmpdirExists := false }) ∧
      get_action_human acts false (nethackC 'c' :: more) 0 = (some none, 0) := by
  refine ⟨{ markFrame cfg st with action := none }, rfl, ?_, ?_, ?_, ?_, ?_, ?_, rfl⟩
  · simp
  · simp
  · simp
  · simp
  · simpa using h
  · intro hsg
    simp [playShutdown, hsg]

theorem abort_terminates_immediately_witness :
    ∃ st1, runLoop { is_raw_env := false, ngames := 5, max_steps := 10,
                     save_gif := false } (fun _ => 1)
        (Iter.abort :: [Iter.step 0 0 true]) initSt = (st1, ExitKind.aborted) ∧
      st1.episodes = initSt.episodes ∧
      st1.steps = initSt.steps ∧
      st1.reports = initSt.reports ∧
      st1.resets = initSt.resets ∧
      st1.episodes <
        ({ is_raw_env := false, ngames := 5, max_steps := 10,
           save_gif := false } : Config).ngames ∧
      (({ is_raw_env := false, ngames := 5, max_steps := 10,
          save_gif := false } : Config).save_gif = false →
        playShutdown { is_raw_env := false, ngames := 5, max_steps := 10,
                       save_gif := false } 300 (st1, ExitKind.aborted) =
          some { finalSt := st1, exit := ExitKind.aborted, gif := none,
                 tmpdirExists := false }) ∧
      get_action_human [10, 20] false (nethackC 'c' :: [107]) 0 = (some none, 0) :=
  abort_terminates_immediately
    { is_raw_env := false, ngames := 5, max_steps := 10, save_gif := false }
    (fun _ => 1) [Iter.step 0 0 true] initSt 300 [10, 20] [107] (by decide)

/-- Claim C6: in human mode (structured backend), for an input byte
sequence of one byte that maps to no legal action (and is not the
control-C abort byte, which lines 56-58 intercept before any lookup)
followed by one byte that does map to a legal action, `get_action`
prints exactly one corrective message, retries the read, and returns
the index of the second byte in the action list; the `ValueError` of
the failed lookup is caught at lines 65-73 and never surfaces. -/
theorem human_mode_retry_second_byte (actions : List Nat) (b1 b2 : Nat)
    (h1m : b1 ∉ actions) (h1c : b1 ≠ nethackC 'c')
    (h2m : b2 ∈ actions) (h2c : b2 ≠ nethackC 'c') :
    ∃ i, get_action_human actions false [b1, b2] 0 = (some (some i), 1) ∧
      actions[i]? = some b2 := by
  have e1 : pyIndex actions b1 = Except.error PyExc.valueError :=
    pyIndex_not_mem actions b1 h1m
  obtain ⟨i, hi, hget⟩ := pyIndex_mem actions b2 h2m
  refine ⟨i, ?_, hget⟩
  simp [get_action_human, h1c, h2c, e1, hi]

theorem human_mode_retry_second_byte_witness :
    ∃ i, get_action_human [10, 20] false [5, 20] 0 = (some (some i), 1) ∧
      ([10, 20] : List Nat)[i]? = some 20 :=
  human_mode_retry_second_byte [10, 20] 5 20 (by decide) (by decide)
    (by decide) (by decide)

/-- Claim C7 counterexample: with the raw backend selected, recording
enabled and Pillow not installed, the run does not fail before the
environment is constructed: it constructs the environment (line 100)
and resets it (line 126) — simulation begins — and no fatal
Pillow-missing configuration error with the remediation hint is ever
raised (the check at lines 106-114 sits in the non-raw branch only);
the run instead crashes at the first frame capture of the loop
(line 160), after simulation has started. -/
theorem pillow_check_skipped_for_raw_cx :
    playStart true true false =
      [PlayEvent.constructEnv, PlayEvent.resetEnv, PlayEvent.crashNoPillowName] ∧
    (∀ e ∈ playStart true true false, e ≠ PlayEvent.raiseNoPillow pillowHint) ∧
    (playStart true true false).head? = some PlayEvent.constructEnv := by
  refine ⟨rfl, ?_, rfl⟩
  decide

/-- Claim C7 amended: for every configuration with recording enabled
and a structured (non-raw) backend, if Pillow is not installed the run
fails with the user-visible `ModuleNotFoundError` carrying the
pip-install remediation hint before any simulation begins — the event
trace consists of that error alone, with no environment construction,
no reset and no step; for the raw backend the check is skipped and the
failure only occurs after construction and reset. -/
theorem pillow_missing_fatal_before_simulation :
    playStart false true false = [PlayEvent.raiseNoPillow pillowHint] ∧
    PlayEvent.constructEnv ∉ playStart false true false ∧
    PlayEvent.resetEnv ∉ playStart false true false ∧
    PlayEvent.frameSave ∉ playStart false true false := by
  refine ⟨rfl, ?_, ?_, ?_⟩ <;> decide

/-- Claim C8: with recording enabled, a structured run of 2 configured
episodes of 3 steps each captures exactly 6 frames, tagged
`(episode, step)` in strictly increasing lexicographic order
`(0,0) … (1,2)`; at termination they are assembled into a single
artifact holding the frames in exactly that order with infinite
looping (`loop = 0`), and the temporary frame store no longer exists
after assembly. -/
theorem recording_two_episodes_three_steps :
    ∃ out : FinalOutcome,
      playShutdown { is_raw_env := false, ngames := 2, max_steps := 10000,
                     save_gif := true } 300
        (runLoop { is_raw_env := false, ngames := 2, max_steps := 10000,
                   save_gif := true } (fun _ => 1)
          [Iter.step 1 1 false, Iter.step 2 2 false, Iter.step 3 3 true,
           Iter.step 4 4 false, Iter.step 5 5 false, Iter.step 6 6 true]
          initSt) = some out ∧
      out.finalSt.frames = [(0, 0), (0, 1), (0, 2), (1, 0), (1, 1), (1, 2)] ∧
      out.finalSt.frames.length = 6 ∧
      out.gif = some { gifFrames := [(0, 0), (0, 1), (0, 2), (1, 0), (1, 1), (1, 2)],
                       duration := 300, loopCount := 0 } ∧
      out.exit = ExitKind.completed ∧
      out.tmpdirExists = false ∧
      List.Pairwise (fun p q : Nat × Nat => p.1 < q.1 ∨ (p.1 = q.1 ∧ p.2 < q.2))
        out.finalSt.frames := by
  refine ⟨_, rfl, ?_⟩
  decide

/-- Claim C9: the `no_echo` scoped raw-mode region restores the
terminal settings that were in effect before it ran, on every exit
path alike — whether the body returns normally or ends in any
exception (`KeyboardInterrupt` included), the terminal state after
`no_echo` equals the terminal state before it, and the body's result
or exception is passed through unchanged. -/
theorem no_echo_restores_terminal {α : Type}
    (body : Terminal → Except PyExc α × Terminal) (t : Terminal) :
    (no_echo body t).2 = t ∧
    (no_echo body t).1 = (body (setraw t)).1 :=
  ⟨rfl, rfl⟩

/-- Claim C10: whenever recording is enabled, one frame is captured at
the top of the first loop iteration, before the first action is ever
requested, so for every nonempty script — including an abort at the
very first action request — the captured-frame list at loop exit is
nonempty, the `img, *imgs` destructuring of the assembly step cannot
fail, and the shutdown code produces an artifact. -/
theorem recording_first_frame_before_first_action (israw : Bool)
    (ng ms gd : Nat) (δ : Nat → Rat) (it : Iter) (script : List Iter) :
    (runLoop { is_raw_env := israw, ngames := ng, max_steps := ms,
               save_gif := true } δ (it :: script) initSt).1.frames ≠ [] ∧
    (assembleGif gd
      (runLoop { is_raw_env := israw, ngames := ng, max_steps := ms,
                 save_gif := true } δ (it :: script) initSt).1.frames).isSome ∧
    (playShutdown { is_raw_env := israw, ngames := ng, max_steps := ms,
                    save_gif := true } gd
      (runLoop { is_raw_env := israw, ngames := ng, max_steps := ms,
                 save_gif := true } δ (it :: script) initSt)).isSome := by
  have hne : (runLoop { is_raw_env := israw, ngames := ng, max_steps := ms,
                        save_gif := true } δ (it :: script) initSt).1.frames ≠ [] := by
    have hcap : (loopIter { is_raw_env := israw, ngames := ng, max_steps := ms,
                            save_gif := true } δ it initSt).1.frames = [(0, 0)] := by
      rw [loopIter_frames_capture _ δ it initSt rfl]
      rfl
    rcases hli : loopIter { is_raw_env := israw, ngames := ng, max_steps := ms,
                            save_gif := true } δ it initSt with ⟨st1, ek⟩
    rw [hli] at hcap
    cases ek with
    | none =>
      rw [runLoop_cons_continue _ δ it initSt script (by rw [hli]), hli]
      have hpre := runLoop_frames_prefix
        { is_raw_env := israw, ngames := ng, max_steps := ms, save_gif := true }
        δ script st1
      intro hempty
      rw [hempty] at hpre
      rw [List.prefix_nil] at hpre
      rw [hpre] at hcap
      cases hcap
    | some e =>
      rw [runLoop_cons_exit _ δ it initSt script e (by rw [hli]), hli]
      simp at hcap
      simp [hcap]
  have hsome : (assembleGif gd
      (runLoop { is_raw_env := israw, ngames := ng, max_steps := ms,
                 save_gif := true } δ (it :: script) initSt).1.frames).isSome := by
    rcases hfr : (runLoop { is_raw_env := israw, ngames := ng, max_steps := ms,
                            save_gif := true } δ (it :: script) initSt).1.frames with _ | ⟨f, fs⟩
    · exact absurd hfr hne
    · rfl
  refine ⟨hne, hsome, ?_⟩
  obtain ⟨g, hg⟩ := Option.isSome_iff_exists.mp hsome
  simp [playShutdown, hg]

end MinihackPlay
